import Mathlib

/-!
Shallow embedding of the SPI flash driver (`src/src/lib.rs`).

The driver talks to the chip through single-byte full-duplex SPI transfers
(`SPI.transfer`).  We model the transport as an oracle `rx : Nat → Nat`
giving the byte clocked in on the n-th transfer, and the controller state as
the number of transfers performed so far together with the list of bytes
transmitted so far.  Every byte placed on the wire is truncated to 8 bits,
and every byte clocked in is likewise reduced modulo 256, mirroring the
`u8` transfer type.  The unbounded `while busy();` loop of `command` is
modelled with explicit fuel: `none` means the loop was still spinning when
the fuel ran out.
-/

namespace SPIFlash

def SPIFLASH_WRITEENABLE : Nat := 0x06
def SPIFLASH_WRITEDISABLE : Nat := 0x04
def SPIFLASH_BLOCKERASE_4K : Nat := 0x20
def SPIFLASH_BLOCKERASE_32K : Nat := 0x52
def SPIFLASH_BLOCKERASE_64K : Nat := 0xD8
def SPIFLASH_CHIPERASE : Nat := 0x60
def SPIFLASH_STATUSREAD : Nat := 0x05
def SPIFLASH_STATUSWRITE : Nat := 0x01
def SPIFLASH_ARRAYREAD : Nat := 0x0B
def SPIFLASH_ARRAYREADLOWFREQ : Nat := 0x03
def SPIFLASH_SLEEP : Nat := 0xB9
def SPIFLASH_WAKE : Nat := 0xAB
def SPIFLASH_BYTEPAGEPROGRAM : Nat := 0x02
def SPIFLASH_IDREAD : Nat := 0x9F
def SPIFLASH_MACREAD : Nat := 0x4B

/-- The observable SPI bus state: how many single-byte transfers have
happened, and the bytes transmitted so far, in order. -/
structure SpiState where
  idx : Nat
  tx : List Nat
deriving Repr, DecidableEq

/-- The transport oracle: the raw byte the chip returns on transfer `n`. -/
def Rx : Type := Nat → Nat

/-- `SPI.transfer(b)`: transmit the low 8 bits of `b`, clock in one byte. -/
def transfer (rx : Rx) (s : SpiState) (b : Nat) : SpiState × Nat :=
  (⟨s.idx + 1, s.tx ++ [b % 256]⟩, rx s.idx % 256)

/-- `read_status`: transmit the STATUSREAD opcode, clock in the status byte
(`SPI.transfer(SPIFLASH_STATUSREAD); status = SPI.transfer(0)`). -/
def read_status (rx : Rx) (s : SpiState) : SpiState × Nat :=
  let p1 := transfer rx s SPIFLASH_STATUSREAD
  let p2 := transfer rx p1.1 0
  (p2.1, p2.2)

/-- `busy`: `read_status() & 1 > 0`. -/
def busy (rx : Rx) (s : SpiState) : SpiState × Bool :=
  let p := read_status rx s
  (p.1, decide (p.2 &&& 1 > 0))

/-- The `while busy();` loop of `command`, with explicit fuel.  It keeps
issuing status reads until one reports BUSY = 0; `none` means the fuel ran
out while the transport still reported busy. -/
def wait (rx : Rx) : Nat → SpiState → Option SpiState
  | 0, _ => none
  | fuel + 1, s =>
    let p := busy rx s
    if p.2 then wait rx fuel p.1 else some p.1

/-- `command(cmd)`: busy-wait (unless the command is WAKE), then transmit
the command byte. -/
def command (rx : Rx) (fuel : Nat) (s : SpiState) (cmd : Nat) : Option SpiState :=
  if cmd ≠ SPIFLASH_WAKE then
    (wait rx fuel s).map fun s1 => (transfer rx s1 cmd).1
  else
    some (transfer rx s cmd).1

/-- `write_command(command)`: the body is `command(SPIFLASH_WRITEENABLE)`;
the parameter is never used.  (`write_byte` and `chip_erase` call it under
the name `command_write`.) -/
def write_command (rx : Rx) (fuel : Nat) (s : SpiState) (c : Nat) : Option SpiState :=
  command rx fuel s SPIFLASH_WRITEENABLE

/-- `unlock`: `write_command(SPIFLASH_STATUSWRITE); SPI.transfer(0)`. -/
def unlock (rx : Rx) (fuel : Nat) (s : SpiState) : Option SpiState :=
  (write_command rx fuel s SPIFLASH_STATUSWRITE).map fun s1 => (transfer rx s1 0).1

/-- The read loop `for i in 0..n { buffer[i] = SPI.transfer(0); }`,
returning the bytes clocked in. -/
def readLoop (rx : Rx) : Nat → SpiState → SpiState × List Nat
  | 0, s => (s, [])
  | n + 1, s =>
    let p := transfer rx s 0
    let q := readLoop rx n p.1
    (q.1, p.2 :: q.2)

/-- `read_device_id`: `command(SPIFLASH_IDREAD)` then two transfers building
the 16-bit JEDEC id, high byte first. -/
def read_device_id (rx : Rx) (fuel : Nat) (s : SpiState) : Option (SpiState × Nat) :=
  (command rx fuel s SPIFLASH_IDREAD).map fun s1 =>
    let p1 := transfer rx s1 0
    let p2 := transfer rx p1.1 0
    (p2.1, (p1.2 <<< 8) ||| p2.2)

/-- `read_unique_id`: `command(SPIFLASH_MACREAD)`, four discarded transfers,
then eight transfers filling `UNIQUEID`. -/
def read_unique_id (rx : Rx) (fuel : Nat) (s : SpiState) : Option (SpiState × List Nat) :=
  (command rx fuel s SPIFLASH_MACREAD).map fun s1 =>
    let p1 := transfer rx s1 0
    let p2 := transfer rx p1.1 0
    let p3 := transfer rx p2.1 0
    let p4 := transfer rx p3.1 0
    readLoop rx 8 p4.1

/-- `read_byte(address)`: `command(SPIFLASH_ARRAYREADLOWFREQ)`, the three
address bytes most-significant first, then one data transfer whose received
byte is the result.  The `u32` address is reduced modulo `2^32`. -/
def read_byte (rx : Rx) (fuel : Nat) (s : SpiState) (addr : Nat) : Option (SpiState × Nat) :=
  (command rx fuel s SPIFLASH_ARRAYREADLOWFREQ).map fun s1 =>
    let a := addr % 4294967296
    let p1 := transfer rx s1 (a >>> 16)
    let p2 := transfer rx p1.1 (a >>> 8)
    let p3 := transfer rx p2.1 a
    transfer rx p3.1 0

/-- `read_bytes(address, buffer)`: `command(SPIFLASH_ARRAYREAD)`, the three
address bytes, one dummy transfer, then `buffer.len()` data transfers. -/
def read_bytes (rx : Rx) (fuel : Nat) (s : SpiState) (addr : Nat) (n : Nat) :
    Option (SpiState × List Nat) :=
  (command rx fuel s SPIFLASH_ARRAYREAD).map fun s1 =>
    let a := addr % 4294967296
    let p1 := transfer rx s1 (a >>> 16)
    let p2 := transfer rx p1.1 (a >>> 8)
    let p3 := transfer rx p2.1 a
    let p4 := transfer rx p3.1 0
    readLoop rx n p4.1

/-- `write_byte(address, byte)`: `command_write(SPIFLASH_BYTEPAGEPROGRAM)`
(that is, `write_command`), the three address bytes, then the data byte. -/
def write_byte (rx : Rx) (fuel : Nat) (s : SpiState) (addr : Nat) (byte : Nat) :
    Option SpiState :=
  (write_command rx fuel s SPIFLASH_BYTEPAGEPROGRAM).map fun s1 =>
    let a := addr % 4294967296
    let p1 := transfer rx s1 (a >>> 16)
    let p2 := transfer rx p1.1 (a >>> 8)
    let p3 := transfer rx p2.1 a
    (transfer rx p3.1 byte).1

/-- `chip_erase`: `command_write(SPIFLASH_CHIPERASE)` and nothing else. -/
def chip_erase (rx : Rx) (fuel : Nat) (s : SpiState) : Option SpiState :=
  write_command rx fuel s SPIFLASH_CHIPERASE

/-- `erase_4k_block(addr)`: `command(SPIFLASH_BLOCKERASE_4K)` then the three
address bytes, transmitted exactly as given (no alignment masking). -/
def erase_4k_block (rx : Rx) (fuel : Nat) (s : SpiState) (addr : Nat) : Option SpiState :=
  (command rx fuel s SPIFLASH_BLOCKERASE_4K).map fun s1 =>
    let a := addr % 4294967296
    let p1 := transfer rx s1 (a >>> 16)
    let p2 := transfer rx p1.1 (a >>> 8)
    (transfer rx p2.1 a).1

/-- `erase_32k_block(addr)`: as `erase_4k_block` with the 32K opcode. -/
def erase_32k_block (rx : Rx) (fuel : Nat) (s : SpiState) (addr : Nat) : Option SpiState :=
  (command rx fuel s SPIFLASH_BLOCKERASE_32K).map fun s1 =>
    let a := addr % 4294967296
    let p1 := transfer rx s1 (a >>> 16)
    let p2 := transfer rx p1.1 (a >>> 8)
    (transfer rx p2.1 a).1

/-- `erase_64k_block(addr)`: as `erase_4k_block` with the 64K opcode. -/
def erase_64k_block (rx : Rx) (fuel : Nat) (s : SpiState) (addr : Nat) : Option SpiState :=
  (command rx fuel s SPIFLASH_BLOCKERASE_64K).map fun s1 =>
    let a := addr % 4294967296
    let p1 := transfer rx s1 (a >>> 16)
    let p2 := transfer rx p1.1 (a >>> 8)
    (transfer rx p2.1 a).1

/-- `sleep`: `command(SPIFLASH_SLEEP)`. -/
def sleep (rx : Rx) (fuel : Nat) (s : SpiState) : Option SpiState :=
  command rx fuel s SPIFLASH_SLEEP

/-- `wakeup`: `command(SPIFLASH_WAKE)`. -/
def wakeup (rx : Rx) (fuel : Nat) (s : SpiState) : Option SpiState :=
  command rx fuel s SPIFLASH_WAKE

/-- The bytes a run of `k` status polls puts on the wire. -/
def waitTx (k : Nat) : List Nat :=
  List.flatten (List.replicate k [SPIFLASH_STATUSREAD, 0])

/-- The empty bus state. -/
def s0 : SpiState := ⟨0, []⟩

/-- A transport that always returns `0`: never busy, all-zero data. -/
def rx0 : Rx := fun _ => 0

/-- A transport whose status reads report busy for the first `N` polls of a
run started on a fresh bus, and not-busy from poll `N` on (status bytes are
clocked in on odd transfer indices). -/
def rxN (N : Nat) : Rx := fun i => if i % 2 = 1 ∧ i < 2 * N + 1 then 1 else 0

/-- A transport that always returns the byte `0xA5`. -/
def rxA5 : Rx := fun _ => 0xA5

lemma transfer_eq (rx : Rx) (s : SpiState) (b : Nat) :
    transfer rx s b = (⟨s.idx + 1, s.tx ++ [b % 256]⟩, rx s.idx % 256) := rfl

lemma read_status_eq (rx : Rx) (s : SpiState) :
    read_status rx s = (⟨s.idx + 2, s.tx ++ [SPIFLASH_STATUSREAD, 0]⟩, rx (s.idx + 1) % 256) := by
  simp [read_status, transfer, SPIFLASH_STATUSREAD]

lemma busy_eq (rx : Rx) (s : SpiState) :
    busy rx s = (⟨s.idx + 2, s.tx ++ [SPIFLASH_STATUSREAD, 0]⟩,
      decide ((rx (s.idx + 1) % 256) &&& 1 > 0)) := by
  simp only [busy, read_status_eq]

lemma waitTx_succ (k : Nat) :
    waitTx (k + 1) = [SPIFLASH_STATUSREAD, 0] ++ waitTx k := by
  simp [waitTx, List.replicate_succ]

lemma mem_waitTx {b k : Nat} (h : b ∈ waitTx k) :
    b = SPIFLASH_STATUSREAD ∨ b = 0 := by
  induction k with
  | zero => simp [waitTx] at h
  | succ k ih =>
    rw [waitTx_succ] at h
    simp only [List.cons_append, List.nil_append, List.mem_cons] at h
    rcases h with h | h | h
    · exact Or.inl h
    · exact Or.inr h
    · exact ih h

/-- Every successful busy-wait transmits some positive number `k` of status
polls, each a `[STATUSREAD, 0]` pair, and advances the transfer count by
`2 * k`. -/
lemma wait_eq_some (rx : Rx) :
    ∀ fuel s s', wait rx fuel s = some s' →
      ∃ k, 1 ≤ k ∧ s'.idx = s.idx + 2 * k ∧ s'.tx = s.tx ++ waitTx k := by
  intro fuel
  induction fuel with
  | zero => intro s s' h; simp [wait] at h
  | succ fuel ih =>
    intro s s' h
    rw [wait, busy_eq] at h
    by_cases hb : (rx (s.idx + 1) % 256) &&& 1 > 0
    · rw [if_pos (decide_eq_true hb)] at h
      replace h : wait rx fuel ⟨s.idx + 2, s.tx ++ [SPIFLASH_STATUSREAD, 0]⟩ = some s' := h
      obtain ⟨k, hk1, hidx, htx⟩ := ih _ _ h
      simp only at hidx htx
      refine ⟨k + 1, by omega, by omega, ?_⟩
      rw [htx, waitTx_succ]
      simp
    · rw [if_neg (fun hc => hb (of_decide_eq_true hc))] at h
      obtain rfl : SpiState.mk (s.idx + 2) (s.tx ++ [SPIFLASH_STATUSREAD, 0]) = s' :=
        Option.some.inj h
      refine ⟨1, le_refl 1, ?_, ?_⟩
      · show s.idx + 2 = s.idx + 2 * 1
        omega
      · show s.tx ++ [SPIFLASH_STATUSREAD, 0] = s.tx ++ waitTx 1
        simp [waitTx]

/-- One busy poll: if the clocked-in status byte is odd, the loop keeps
going with two more transfers on the record. -/
lemma wait_succ_busy (rx : Rx) (fuel : Nat) (s : SpiState)
    (h : rx (s.idx + 1) % 256 % 2 = 1) :
    wait rx (fuel + 1) s = wait rx fuel ⟨s.idx + 2, s.tx ++ [SPIFLASH_STATUSREAD, 0]⟩ := by
  simp [wait, busy_eq, Nat.and_one_is_mod, h]

/-- One busy poll: if the clocked-in status byte is even, the loop stops
right after this status read. -/
lemma wait_succ_idle (rx : Rx) (fuel : Nat) (s : SpiState)
    (h : rx (s.idx + 1) % 256 % 2 = 0) :
    wait rx (fuel + 1) s = some ⟨s.idx + 2, s.tx ++ [SPIFLASH_STATUSREAD, 0]⟩ := by
  simp [wait, busy_eq, Nat.and_one_is_mod, h]

/-- If the transport reports busy on the first `N` status polls of a run and
not-busy on poll `N`, the busy-wait performs exactly `N + 1` status reads and
stops: `2 * (N + 1)` transfers, transmitting `N + 1` poll pairs. -/
lemma wait_exact (rx : Rx) :
    ∀ N fuel s, N < fuel →
      (∀ j, j < N → rx (s.idx + 2 * j + 1) % 256 % 2 = 1) →
      rx (s.idx + 2 * N + 1) % 256 % 2 = 0 →
      wait rx fuel s = some ⟨s.idx + 2 * (N + 1), s.tx ++ waitTx (N + 1)⟩ := by
  intro N
  induction N with
  | zero =>
    intro fuel s hfuel _ hn
    obtain ⟨f, rfl⟩ : ∃ f, fuel = f + 1 := ⟨fuel - 1, by omega⟩
    have hn1 : rx (s.idx + 1) % 256 % 2 = 0 := by
      have harg : s.idx + 2 * 0 + 1 = s.idx + 1 := by omega
      rw [harg] at hn
      exact hn
    rw [wait_succ_idle rx f s hn1]
    refine congrArg some ?_
    simp [SpiState.mk.injEq, waitTx]
  | succ N ih =>
    intro fuel s hfuel hb hn
    obtain ⟨f, rfl⟩ : ∃ f, fuel = f + 1 := ⟨fuel - 1, by omega⟩
    have hb0 : rx (s.idx + 1) % 256 % 2 = 1 := by
      have := hb 0 (Nat.succ_pos N)
      have harg : s.idx + 2 * 0 + 1 = s.idx + 1 := by omega
      rw [harg] at this
      exact this
    have hb2 : ∀ j, j < N →
        rx (s.idx + 2 + 2 * j + 1) % 256 % 2 = 1 := by
      intro j hj
      have harg : s.idx + 2 + 2 * j + 1 = s.idx + 2 * (j + 1) + 1 := by omega
      rw [harg]
      exact hb (j + 1) (by omega)
    have hn2 : rx (s.idx + 2 + 2 * N + 1) % 256 % 2 = 0 := by
      have harg : s.idx + 2 + 2 * N + 1 = s.idx + 2 * (N + 1) + 1 := by omega
      rw [harg]
      exact hn
    have h2 := ih f ⟨s.idx + 2, s.tx ++ [SPIFLASH_STATUSREAD, 0]⟩ (by omega) hb2 hn2
    rw [wait_succ_busy rx f s hb0]
    have heq : (⟨s.idx + 2 * (N + 1 + 1), s.tx ++ waitTx (N + 1 + 1)⟩ : SpiState)
        = ⟨s.idx + 2 + 2 * (N + 1), s.tx ++ [SPIFLASH_STATUSREAD, 0] ++ waitTx (N + 1)⟩ := by
      rw [waitTx_succ, ← List.append_assoc,
        show s.idx + 2 * (N + 1 + 1) = s.idx + 2 + 2 * (N + 1) from by omega]
    rw [heq]
    exact h2

/-- If the transport reports busy on every status poll, the busy-wait never
succeeds, whatever the fuel. -/
lemma wait_none (rx : Rx) (hb : ∀ i, rx i % 256 % 2 = 1) :
    ∀ fuel s, wait rx fuel s = none := by
  intro fuel
  induction fuel with
  | zero => intro s; rfl
  | succ fuel ih =>
    intro s
    rw [wait_succ_busy rx fuel s (hb (s.idx + 1))]
    exact ih _

/-- `command` on anything but WAKE: busy-wait, then one transfer of the
command byte. -/
lemma command_ne_wake (rx : Rx) (fuel : Nat) (s s' : SpiState) (cmd : Nat)
    (h : wait rx fuel s = some s') (hc : cmd ≠ SPIFLASH_WAKE) :
    command rx fuel s cmd = some ⟨s'.idx + 1, s'.tx ++ [cmd % 256]⟩ := by
  rw [command, if_pos hc, h]
  rfl

/-- `command SPIFLASH_WAKE` transfers the WAKE byte with no busy-wait. -/
lemma command_wake (rx : Rx) (fuel : Nat) (s : SpiState) :
    command rx fuel s SPIFLASH_WAKE = some ⟨s.idx + 1, s.tx ++ [SPIFLASH_WAKE]⟩ := by
  rw [command, if_neg (by simp)]
  rfl

/-- The bytes a run of `n` data transfers starting at transfer index `i0`
clocks in. -/
def rxBytes (rx : Rx) (i0 n : Nat) : List Nat :=
  (List.range n).map fun i => rx (i0 + i) % 256

lemma rxBytes_succ (rx : Rx) (i0 n : Nat) :
    rxBytes rx i0 (n + 1) = rx i0 % 256 :: rxBytes rx (i0 + 1) n := by
  rw [rxBytes, List.range_succ_eq_map, List.map_cons, List.map_map]
  refine congrArg₂ List.cons (by simp) ?_
  refine List.map_congr_left ?_
  intro i _
  show rx (i0 + (i + 1)) % 256 = rx (i0 + 1 + i) % 256
  rw [show i0 + (i + 1) = i0 + 1 + i from by omega]

lemma rxBytes_length (rx : Rx) (i0 n : Nat) : (rxBytes rx i0 n).length = n := by
  simp [rxBytes]

lemma readLoop_eq (rx : Rx) :
    ∀ n s, readLoop rx n s
      = (⟨s.idx + n, s.tx ++ List.replicate n 0⟩, rxBytes rx s.idx n) := by
  intro n
  induction n with
  | zero => intro s; simp [readLoop, rxBytes]
  | succ n ih =>
    intro s
    rw [readLoop]
    simp only [transfer]
    rw [ih, rxBytes_succ]
    simp [Prod.mk.injEq, SpiState.mk.injEq, List.replicate_succ] <;> omega

/-- `write_command` transmits the busy-poll bytes and then WRITEENABLE,
whatever opcode it was asked to send. -/
lemma write_command_eq (rx : Rx) (fuel : Nat) (s s' : SpiState) (c : Nat)
    (h : wait rx fuel s = some s') :
    write_command rx fuel s c = some ⟨s'.idx + 1, s'.tx ++ [SPIFLASH_WRITEENABLE]⟩ := by
  rw [write_command, command_ne_wake rx fuel s s' SPIFLASH_WRITEENABLE h (by decide)]
  simp [SPIFLASH_WRITEENABLE]

lemma read_byte_eq (rx : Rx) (fuel : Nat) (s s' : SpiState) (addr : Nat)
    (h : wait rx fuel s = some s') (ha : addr < 4294967296) :
    read_byte rx fuel s addr
      = some (⟨s'.idx + 5,
          s'.tx ++ [SPIFLASH_ARRAYREADLOWFREQ,
            (addr >>> 16) % 256, (addr >>> 8) % 256, addr % 256, 0]⟩,
        rx (s'.idx + 4) % 256) := by
  rw [read_byte, command_ne_wake rx fuel s s' SPIFLASH_ARRAYREADLOWFREQ h (by decide)]
  simp [transfer, Nat.mod_eq_of_lt ha, SPIFLASH_ARRAYREADLOWFREQ,
    SpiState.mk.injEq, Prod.mk.injEq] <;> omega

lemma read_bytes_eq (rx : Rx) (fuel : Nat) (s s' : SpiState) (addr n : Nat)
    (h : wait rx fuel s = some s') (ha : addr < 4294967296) :
    read_bytes rx fuel s addr n
      = some (⟨s'.idx + 5 + n,
          s'.tx ++ [SPIFLASH_ARRAYREAD,
            (addr >>> 16) % 256, (addr >>> 8) % 256, addr % 256, 0]
            ++ List.replicate n 0⟩,
        rxBytes rx (s'.idx + 5) n) := by
  rw [read_bytes, command_ne_wake rx fuel s s' SPIFLASH_ARRAYREAD h (by decide)]
  simp only [Option.map_some']
  refine congrArg some ?_
  rw [show (transfer rx ⟨s'.idx + 1, s'.tx ++ [SPIFLASH_ARRAYREAD % 256]⟩
      ((addr % 4294967296) >>> 16)).1 = ⟨s'.idx + 2,
        s'.tx ++ [SPIFLASH_ARRAYREAD % 256, ((addr % 4294967296) >>> 16) % 256]⟩ from by
    simp [transfer]]
  simp [transfer, readLoop_eq, Nat.mod_eq_of_lt ha, SPIFLASH_ARRAYREAD,
    SpiState.mk.injEq, Prod.mk.injEq] <;> omega

lemma write_byte_eq (rx : Rx) (fuel : Nat) (s s' : SpiState) (addr byte : Nat)
    (h : wait rx fuel s = some s') (ha : addr < 4294967296) :
    write_byte rx fuel s addr byte
      = some ⟨s'.idx + 5,
          s'.tx ++ [SPIFLASH_WRITEENABLE,
            (addr >>> 16) % 256, (addr >>> 8) % 256, addr % 256, byte % 256]⟩ := by
  rw [write_byte, write_command_eq rx fuel s s' SPIFLASH_BYTEPAGEPROGRAM h]
  simp [transfer, Nat.mod_eq_of_lt ha, SpiState.mk.injEq] <;> omega

lemma chip_erase_eq (rx : Rx) (fuel : Nat) (s s' : SpiState)
    (h : wait rx fuel s = some s') :
    chip_erase rx fuel s = some ⟨s'.idx + 1, s'.tx ++ [SPIFLASH_WRITEENABLE]⟩ := by
  rw [chip_erase, write_command_eq rx fuel s s' SPIFLASH_CHIPERASE h]

lemma erase_4k_block_eq (rx : Rx) (fuel : Nat) (s s' : SpiState) (addr : Nat)
    (h : wait rx fuel s = some s') (ha : addr < 4294967296) :
    erase_4k_block rx fuel s addr
      = some ⟨s'.idx + 4,
          s'.tx ++ [SPIFLASH_BLOCKERASE_4K,
            (addr >>> 16) % 256, (addr >>> 8) % 256, addr % 256]⟩ := by
  rw [erase_4k_block, command_ne_wake rx fuel s s' SPIFLASH_BLOCKERASE_4K h (by decide)]
  simp [transfer, Nat.mod_eq_of_lt ha, SPIFLASH_BLOCKERASE_4K, SpiState.mk.injEq] <;> omega

lemma erase_32k_block_eq (rx : Rx) (fuel : Nat) (s s' : SpiState) (addr : Nat)
    (h : wait rx fuel s = some s') (ha : addr < 4294967296) :
    erase_32k_block rx fuel s addr
      = some ⟨s'.idx + 4,
          s'.tx ++ [SPIFLASH_BLOCKERASE_32K,
            (addr >>> 16) % 256, (addr >>> 8) % 256, addr % 256]⟩ := by
  rw [erase_32k_block, command_ne_wake rx fuel s s' SPIFLASH_BLOCKERASE_32K h (by decide)]
  simp [transfer, Nat.mod_eq_of_lt ha, SPIFLASH_BLOCKERASE_32K, SpiState.mk.injEq] <;> omega

lemma erase_64k_block_eq (rx : Rx) (fuel : Nat) (s s' : SpiState) (addr : Nat)
    (h : wait rx fuel s = some s') (ha : addr < 4294967296) :
    erase_64k_block rx fuel s addr
      = some ⟨s'.idx + 4,
          s'.tx ++ [SPIFLASH_BLOCKERASE_64K,
            (addr >>> 16) % 256, (addr >>> 8) % 256, addr % 256]⟩ := by
  rw [erase_64k_block, command_ne_wake rx fuel s s' SPIFLASH_BLOCKERASE_64K h (by decide)]
  simp [transfer, Nat.mod_eq_of_lt ha, SPIFLASH_BLOCKERASE_64K, SpiState.mk.injEq] <;> omega

lemma sleep_eq (rx : Rx) (fuel : Nat) (s s' : SpiState)
    (h : wait rx fuel s = some s') :
    sleep rx fuel s = some ⟨s'.idx + 1, s'.tx ++ [SPIFLASH_SLEEP]⟩ := by
  rw [sleep, command_ne_wake rx fuel s s' SPIFLASH_SLEEP h (by decide)]
  simp [SPIFLASH_SLEEP]

lemma wakeup_eq (rx : Rx) (fuel : Nat) (s : SpiState) :
    wakeup rx fuel s = some ⟨s.idx + 1, s.tx ++ [SPIFLASH_WAKE]⟩ := by
  rw [wakeup, command_wake]

lemma read_device_id_eq (rx : Rx) (fuel : Nat) (s s' : SpiState)
    (h : wait rx fuel s = some s') :
    read_device_id rx fuel s
      = some (⟨s'.idx + 3, s'.tx ++ [SPIFLASH_IDREAD, 0, 0]⟩,
        (rx (s'.idx + 1) % 256) <<< 8 ||| rx (s'.idx + 2) % 256) := by
  rw [read_device_id, command_ne_wake rx fuel s s' SPIFLASH_IDREAD h (by decide)]
  simp [transfer, SPIFLASH_IDREAD, SpiState.mk.injEq, Prod.mk.injEq] <;> omega

lemma read_unique_id_eq (rx : Rx) (fuel : Nat) (s s' : SpiState)
    (h : wait rx fuel s = some s') :
    read_unique_id rx fuel s
      = some (⟨s'.idx + 13,
          s'.tx ++ [SPIFLASH_MACREAD, 0, 0, 0, 0] ++ List.replicate 8 0⟩,
        rxBytes rx (s'.idx + 5) 8) := by
  rw [read_unique_id, command_ne_wake rx fuel s s' SPIFLASH_MACREAD h (by decide)]
  simp [transfer, readLoop_eq, SPIFLASH_MACREAD, SpiState.mk.injEq, Prod.mk.injEq] <;> omega

/-- C1: the claim says `write_byte` transmits WRITEENABLE `0x06` before the
BYTEPAGEPROGRAM opcode `0x02`, and each block erase transmits `0x06` before
its erase opcode.  On a never-busy transport, `write_byte(0, 0)` transmits
`[0x05, 0x00, 0x06, 0x00, 0x00, 0x00, 0x00]` — the `0x02` opcode never
appears, because `write_command` discards its argument — and each
`erase_*_block(0)` transmits its erase opcode with no `0x06` anywhere in the
operation. -/
theorem C1_write_enable_gating_fails :
    write_byte rx0 2 s0 0 0 = some ⟨7, [5, 0, 6, 0, 0, 0, 0]⟩ ∧
    SPIFLASH_BYTEPAGEPROGRAM ∉ [5, 0, 6, 0, 0, 0, 0] ∧
    erase_4k_block rx0 2 s0 0 = some ⟨6, [5, 0, 32, 0, 0, 0]⟩ ∧
    SPIFLASH_WRITEENABLE ∉ [5, 0, 32, 0, 0, 0] ∧
    erase_32k_block rx0 2 s0 0 = some ⟨6, [5, 0, 82, 0, 0, 0]⟩ ∧
    SPIFLASH_WRITEENABLE ∉ [5, 0, 82, 0, 0, 0] ∧
    erase_64k_block rx0 2 s0 0 = some ⟨6, [5, 0, 216, 0, 0, 0]⟩ ∧
    SPIFLASH_WRITEENABLE ∉ [5, 0, 216, 0, 0, 0] := by decide

/-- C2 counterexample: `erase_4k_block(0x12345)` transmits the address bytes
`[0x01, 0x23, 0x45]` — the low 12 bits are not cleared, the transmitted
address is not a multiple of 4096, and its low byte differs from that of
`0x12345 & 0xFFF000`. -/
theorem C2_erase4k_alignment_counterexample :
    erase_4k_block rx0 2 s0 0x12345 = some ⟨6, [5, 0, 0x20, 0x01, 0x23, 0x45]⟩ ∧
    (0x12345 &&& 0xFFF000) % 256 ≠ 0x45 ∧
    ((0x01 <<< 16) ||| (0x23 <<< 8) ||| 0x45) % 4096 ≠ 0 := by decide

/-- C2 (amended): for every 24-bit (indeed every `u32`) address,
`erase_4k_block(a)` transmits the three address bytes of `a` itself,
most-significant byte first, with no alignment masking: the low 12 bits are
transmitted exactly as given. -/
theorem C2_erase4k_address_unmasked (rx : Rx) (fuel : Nat) (s s' : SpiState)
    (addr : Nat) (h : wait rx fuel s = some s') (ha : addr < 4294967296) :
    erase_4k_block rx fuel s addr
      = some ⟨s'.idx + 4,
          s'.tx ++ [SPIFLASH_BLOCKERASE_4K,
            (addr >>> 16) % 256, (addr >>> 8) % 256, addr % 256]⟩ :=
  erase_4k_block_eq rx fuel s s' addr h ha

theorem C2_erase4k_address_unmasked_witness :
    (wait rx0 2 s0 = some ⟨2, [5, 0]⟩ ∧ (74565 : Nat) < 4294967296) ∧
    erase_4k_block rx0 2 s0 74565
      = some ⟨(⟨2, [5, 0]⟩ : SpiState).idx + 4,
          (⟨2, [5, 0]⟩ : SpiState).tx ++ [SPIFLASH_BLOCKERASE_4K,
            ((74565 : Nat) >>> 16) % 256, ((74565 : Nat) >>> 8) % 256, 74565 % 256]⟩ :=
  ⟨⟨by decide, by decide⟩,
    C2_erase4k_address_unmasked rx0 2 s0 ⟨2, [5, 0]⟩ 74565 (by decide) (by decide)⟩

/-- C6: the busy-wait loop stops exactly when a status read reports BUSY = 0.
If the transport's status bytes have bit 0 set on the first `N` polls and
clear on poll `N`, the loop performs exactly `N + 1` status-read transactions
(`2 * (N + 1)` transfers, transmitting `N + 1` `[0x05, 0x00]` pairs) and then
stops; and on a transport whose status always has bit 0 set, the loop never
terminates (no fuel suffices). -/
theorem C6_wait_polls_exactly_n_plus_one (N fuel : Nat) (rx : Rx) (s : SpiState)
    (hfuel : N < fuel)
    (hb : ∀ j, j < N → rx (s.idx + 2 * j + 1) % 256 % 2 = 1)
    (hn : rx (s.idx + 2 * N + 1) % 256 % 2 = 0) :
    wait rx fuel s = some ⟨s.idx + 2 * (N + 1), s.tx ++ waitTx (N + 1)⟩ ∧
    ∀ (rx2 : Rx), (∀ i, rx2 i % 256 % 2 = 1) →
      ∀ f2 s2, wait rx2 f2 s2 = none :=
  ⟨wait_exact rx N fuel s hfuel hb hn,
    fun rx2 h2 f2 s2 => wait_none rx2 h2 f2 s2⟩

theorem C6_wait_polls_exactly_n_plus_one_witness :
    ((2 : Nat) < 3 ∧
      (∀ j, j < 2 → rxN 2 (s0.idx + 2 * j + 1) % 256 % 2 = 1) ∧
      rxN 2 (s0.idx + 2 * 2 + 1) % 256 % 2 = 0) ∧
    (wait (rxN 2) 3 s0 = some ⟨s0.idx + 2 * (2 + 1), s0.tx ++ waitTx (2 + 1)⟩ ∧
      ∀ (rx2 : Rx), (∀ i, rx2 i % 256 % 2 = 1) →
        ∀ f2 s2, wait rx2 f2 s2 = none) :=
  ⟨⟨by decide, by decide, by decide⟩,
    C6_wait_polls_exactly_n_plus_one 2 3 (rxN 2) s0 (by decide) (by decide) (by decide)⟩

/-- C9: `busy()` performs exactly one fresh status-read transaction (two
transfers, transmitting `[0x05, 0x00]`) and returns `true` iff bit 0 of the
status byte clocked in by that very transaction is set; nothing is cached —
the result is determined by the transport's byte at the current transfer
index. -/
theorem C9_busy_is_fresh_status_bit0 (rx : Rx) (s : SpiState) :
    busy rx s = (⟨s.idx + 2, s.tx ++ [SPIFLASH_STATUSREAD, 0]⟩,
      decide ((read_status rx s).2 &&& 1 > 0)) ∧
    (read_status rx s).2 = rx (s.idx + 1) % 256 ∧
    ((busy rx s).2 = true ↔ rx (s.idx + 1) % 256 &&& 1 > 0) := by
  refine ⟨?_, ?_, ?_⟩
  · rw [busy_eq, read_status_eq]
  · rw [read_status_eq]
  · rw [busy_eq]
    simp

/-- C10: `read_status()` returns the transport's status byte unchanged: if
the byte clocked in right after the STATUSREAD opcode is `v`, the result is
exactly `v`, and the whole operation is the single two-transfer transaction
`[0x05, 0x00]`. -/
theorem C10_read_status_roundtrip (rx : Rx) (s : SpiState) (v : Nat)
    (hv : v < 256) (hrx : rx (s.idx + 1) = v) :
    (read_status rx s).2 = v ∧
    (read_status rx s).1 = ⟨s.idx + 2, s.tx ++ [SPIFLASH_STATUSREAD, 0]⟩ := by
  rw [read_status_eq]
  exact ⟨by rw [hrx]; exact Nat.mod_eq_of_lt hv, rfl⟩

theorem C10_read_status_roundtrip_witness :
    ((165 : Nat) < 256 ∧ rxA5 (s0.idx + 1) = 165) ∧
    ((read_status rxA5 s0).2 = 165 ∧
      (read_status rxA5 s0).1 = ⟨s0.idx + 2, s0.tx ++ [SPIFLASH_STATUSREAD, 0]⟩) :=
  ⟨⟨by decide, by decide⟩, C10_read_status_roundtrip rxA5 s0 165 (by decide) (by decide)⟩

/-- C3: `write_command(c)` ignores its argument: it behaves exactly as
`command(SPIFLASH_WRITEENABLE)`, transmitting only the busy-poll bytes
followed by `0x06` — never the opcode `c` it was asked to emit (for any `c`
other than the service bytes `0x05`, `0x00`, `0x06` that appear anyway). -/
theorem C3_write_command_ignores_argument (rx : Rx) (fuel : Nat) (s s' : SpiState)
    (c : Nat) (h : wait rx fuel s = some s')
    (hc : c ∉ [SPIFLASH_STATUSREAD, 0, SPIFLASH_WRITEENABLE]) :
    write_command rx fuel s c = command rx fuel s SPIFLASH_WRITEENABLE ∧
    write_command rx fuel s c = some ⟨s'.idx + 1, s'.tx ++ [SPIFLASH_WRITEENABLE]⟩ ∧
    ∃ k, 1 ≤ k ∧ s'.tx = s.tx ++ waitTx k ∧
      c ∉ waitTx k ++ [SPIFLASH_WRITEENABLE] := by
  obtain ⟨k, hk, _, htx⟩ := wait_eq_some rx fuel s s' h
  refine ⟨rfl, write_command_eq rx fuel s s' c h, k, hk, htx, ?_⟩
  intro hm
  apply hc
  rcases List.mem_append.mp hm with hm | hm
  · rcases mem_waitTx hm with h1 | h1 <;> simp [h1]
  · simp only [List.mem_singleton] at hm
    simp [hm]

theorem C3_write_command_ignores_argument_witness :
    (wait rx0 2 s0 = some ⟨2, [5, 0]⟩ ∧
      SPIFLASH_BYTEPAGEPROGRAM ∉ [SPIFLASH_STATUSREAD, 0, SPIFLASH_WRITEENABLE]) ∧
    (write_command rx0 2 s0 SPIFLASH_BYTEPAGEPROGRAM
        = command rx0 2 s0 SPIFLASH_WRITEENABLE ∧
      write_command rx0 2 s0 SPIFLASH_BYTEPAGEPROGRAM
        = some ⟨(⟨2, [5, 0]⟩ : SpiState).idx + 1,
            (⟨2, [5, 0]⟩ : SpiState).tx ++ [SPIFLASH_WRITEENABLE]⟩ ∧
      ∃ k, 1 ≤ k ∧ (⟨2, [5, 0]⟩ : SpiState).tx = s0.tx ++ waitTx k ∧
        SPIFLASH_BYTEPAGEPROGRAM ∉ waitTx k ++ [SPIFLASH_WRITEENABLE]) :=
  ⟨⟨by decide, by decide⟩,
    C3_write_command_ignores_argument rx0 2 s0 ⟨2, [5, 0]⟩ SPIFLASH_BYTEPAGEPROGRAM
      (by decide) (by decide)⟩

/-- C4 counterexample: on a fresh, never-busy transport `read_byte(0)`
transmits `[0x05, 0x00, 0x03, 0x00, 0x00, 0x00, 0x00]`: a STATUSREAD byte
appears before the read opcode, so reads are not issued immediately and are
not free of status polling, contrary to the claim. -/
theorem C4_read_preceded_by_status_poll :
    read_byte rx0 2 s0 0 = some (⟨7, [5, 0, 3, 0, 0, 0, 0]⟩, 0) ∧
    List.take 2 [5, 0, 3, 0, 0, 0, 0] = [SPIFLASH_STATUSREAD, 0] ∧
    SPIFLASH_STATUSREAD ≠ SPIFLASH_ARRAYREADLOWFREQ := by decide

/-- C4 (amended): every read operation (`read_byte`, `read_bytes`,
`read_device_id`, `read_unique_id`) is preceded by the `command` busy-wait —
at least one `[0x05, 0x00]` status poll — but never by a write-enable: the
bytes before the read opcode are exactly the poll bytes and contain no
`0x06`; the opcode and its frame follow immediately after. -/
theorem C4_reads_poll_first_no_write_enable (rx : Rx) (fuel : Nat)
    (s s' : SpiState) (addr n : Nat)
    (h : wait rx fuel s = some s') (ha : addr < 4294967296) :
    ∃ k, 1 ≤ k ∧ s'.tx = s.tx ++ waitTx k ∧ SPIFLASH_WRITEENABLE ∉ waitTx k ∧
      read_byte rx fuel s addr
        = some (⟨s'.idx + 5, s'.tx ++ [SPIFLASH_ARRAYREADLOWFREQ,
            (addr >>> 16) % 256, (addr >>> 8) % 256, addr % 256, 0]⟩,
          rx (s'.idx + 4) % 256) ∧
      read_bytes rx fuel s addr n
        = some (⟨s'.idx + 5 + n, s'.tx ++ [SPIFLASH_ARRAYREAD,
            (addr >>> 16) % 256, (addr >>> 8) % 256, addr % 256, 0]
            ++ List.replicate n 0⟩, rxBytes rx (s'.idx + 5) n) ∧
      read_device_id rx fuel s
        = some (⟨s'.idx + 3, s'.tx ++ [SPIFLASH_IDREAD, 0, 0]⟩,
          (rx (s'.idx + 1) % 256) <<< 8 ||| rx (s'.idx + 2) % 256) ∧
      read_unique_id rx fuel s
        = some (⟨s'.idx + 13, s'.tx ++ [SPIFLASH_MACREAD, 0, 0, 0, 0]
            ++ List.replicate 8 0⟩, rxBytes rx (s'.idx + 5) 8) := by
  obtain ⟨k, hk, _, htx⟩ := wait_eq_some rx fuel s s' h
  refine ⟨k, hk, htx, ?_, read_byte_eq rx fuel s s' addr h ha,
    read_bytes_eq rx fuel s s' addr n h ha, read_device_id_eq rx fuel s s' h,
    read_unique_id_eq rx fuel s s' h⟩
  intro hm
  rcases mem_waitTx hm with h1 | h1 <;>
    simp [SPIFLASH_WRITEENABLE, SPIFLASH_STATUSREAD] at h1

theorem C4_reads_poll_first_no_write_enable_witness :
    (wait rx0 2 s0 = some ⟨2, [5, 0]⟩ ∧ (74565 : Nat) < 4294967296) ∧
    (∃ k, 1 ≤ k ∧ (⟨2, [5, 0]⟩ : SpiState).tx = s0.tx ++ waitTx k ∧
      SPIFLASH_WRITEENABLE ∉ waitTx k ∧
      read_byte rx0 2 s0 74565
        = some (⟨(⟨2, [5, 0]⟩ : SpiState).idx + 5,
            (⟨2, [5, 0]⟩ : SpiState).tx ++ [SPIFLASH_ARRAYREADLOWFREQ,
              ((74565 : Nat) >>> 16) % 256, ((74565 : Nat) >>> 8) % 256, 74565 % 256, 0]⟩,
          rx0 ((⟨2, [5, 0]⟩ : SpiState).idx + 4) % 256) ∧
      read_bytes rx0 2 s0 74565 2
        = some (⟨(⟨2, [5, 0]⟩ : SpiState).idx + 5 + 2,
            (⟨2, [5, 0]⟩ : SpiState).tx ++ [SPIFLASH_ARRAYREAD,
              ((74565 : Nat) >>> 16) % 256, ((74565 : Nat) >>> 8) % 256, 74565 % 256, 0]
              ++ List.replicate 2 0⟩,
          rxBytes rx0 ((⟨2, [5, 0]⟩ : SpiState).idx + 5) 2) ∧
      read_device_id rx0 2 s0
        = some (⟨(⟨2, [5, 0]⟩ : SpiState).idx + 3,
            (⟨2, [5, 0]⟩ : SpiState).tx ++ [SPIFLASH_IDREAD, 0, 0]⟩,
          (rx0 ((⟨2, [5, 0]⟩ : SpiState).idx + 1) % 256) <<< 8
            ||| rx0 ((⟨2, [5, 0]⟩ : SpiState).idx + 2) % 256) ∧
      read_unique_id rx0 2 s0
        = some (⟨(⟨2, [5, 0]⟩ : SpiState).idx + 13,
            (⟨2, [5, 0]⟩ : SpiState).tx ++ [SPIFLASH_MACREAD, 0, 0, 0, 0]
              ++ List.replicate 8 0⟩,
          rxBytes rx0 ((⟨2, [5, 0]⟩ : SpiState).idx + 5) 8)) :=
  ⟨⟨by decide, by decide⟩,
    C4_reads_poll_first_no_write_enable rx0 2 s0 ⟨2, [5, 0]⟩ 74565 2
      (by decide) (by decide)⟩

/-- C5 counterexample: `sleep()` does not transmit the single byte `0xB9`
with no preceding busy-wait: on a never-busy transport it transmits
`[0x05, 0x00, 0xB9]` — a status poll precedes the SLEEP opcode, because only
WAKE is exempt from the busy-wait in `command`. -/
theorem C5_sleep_polls_before_opcode :
    sleep rx0 2 s0 = some ⟨3, [5, 0, 0xB9]⟩ ∧
    (⟨3, [5, 0, 0xB9]⟩ : SpiState) ≠ ⟨1, [0xB9]⟩ ∧
    List.take 2 [5, 0, 0xB9] = [SPIFLASH_STATUSREAD, 0] := by decide

/-- C5 (amended): `sleep()` busy-waits (at least one status poll) and then
transmits exactly the SLEEP opcode `0xB9`; `wakeup()` transmits exactly the
single WAKE opcode byte `0xAB` with no preceding busy-wait. -/
theorem C5_sleep_waits_wakeup_immediate (rx : Rx) (fuel : Nat) (s s' : SpiState)
    (h : wait rx fuel s = some s') :
    sleep rx fuel s = some ⟨s'.idx + 1, s'.tx ++ [SPIFLASH_SLEEP]⟩ ∧
    (∃ k, 1 ≤ k ∧ s'.tx = s.tx ++ waitTx k) ∧
    wakeup rx fuel s = some ⟨s.idx + 1, s.tx ++ [SPIFLASH_WAKE]⟩ := by
  obtain ⟨k, hk, _, htx⟩ := wait_eq_some rx fuel s s' h
  exact ⟨sleep_eq rx fuel s s' h, ⟨k, hk, htx⟩, wakeup_eq rx fuel s⟩

theorem C5_sleep_waits_wakeup_immediate_witness :
    (wait rx0 2 s0 = some ⟨2, [5, 0]⟩) ∧
    (sleep rx0 2 s0 = some ⟨(⟨2, [5, 0]⟩ : SpiState).idx + 1,
        (⟨2, [5, 0]⟩ : SpiState).tx ++ [SPIFLASH_SLEEP]⟩ ∧
      (∃ k, 1 ≤ k ∧ (⟨2, [5, 0]⟩ : SpiState).tx = s0.tx ++ waitTx k) ∧
      wakeup rx0 2 s0 = some ⟨s0.idx + 1, s0.tx ++ [SPIFLASH_WAKE]⟩) :=
  ⟨by decide, C5_sleep_waits_wakeup_immediate rx0 2 s0 ⟨2, [5, 0]⟩ (by decide)⟩

/-- C7 counterexample: `chip_erase()` never transmits the CHIPERASE opcode
`0x60`: on a never-busy transport it transmits `[0x05, 0x00, 0x06]` and
returns, with no `0x60` and no status polling after the write-enable. -/
theorem C7_chip_erase_no_opcode :
    chip_erase rx0 2 s0 = some ⟨3, [5, 0, 6]⟩ ∧
    SPIFLASH_CHIPERASE ∉ [5, 0, 6] := by decide

/-- C7 (amended): `chip_erase()` performs the busy-wait and transmits only
the write-enable opcode `0x06`, returning immediately afterwards: the
CHIPERASE opcode `0x60` is never transmitted (`write_command` discards it)
and no status polling follows the `0x06`. -/
theorem C7_chip_erase_write_enable_only (rx : Rx) (fuel : Nat) (s s' : SpiState)
    (h : wait rx fuel s = some s') :
    chip_erase rx fuel s = some ⟨s'.idx + 1, s'.tx ++ [SPIFLASH_WRITEENABLE]⟩ ∧
    ∃ k, 1 ≤ k ∧ s'.tx = s.tx ++ waitTx k ∧
      SPIFLASH_CHIPERASE ∉ waitTx k ++ [SPIFLASH_WRITEENABLE] := by
  obtain ⟨k, hk, _, htx⟩ := wait_eq_some rx fuel s s' h
  refine ⟨chip_erase_eq rx fuel s s' h, k, hk, htx, ?_⟩
  intro hm
  rcases List.mem_append.mp hm with hm | hm
  · rcases mem_waitTx hm with h1 | h1 <;>
      simp [SPIFLASH_CHIPERASE, SPIFLASH_STATUSREAD] at h1
  · simp [SPIFLASH_CHIPERASE, SPIFLASH_WRITEENABLE] at hm

theorem C7_chip_erase_write_enable_only_witness :
    (wait rx0 2 s0 = some ⟨2, [5, 0]⟩) ∧
    (chip_erase rx0 2 s0 = some ⟨(⟨2, [5, 0]⟩ : SpiState).idx + 1,
        (⟨2, [5, 0]⟩ : SpiState).tx ++ [SPIFLASH_WRITEENABLE]⟩ ∧
      ∃ k, 1 ≤ k ∧ (⟨2, [5, 0]⟩ : SpiState).tx = s0.tx ++ waitTx k ∧
        SPIFLASH_CHIPERASE ∉ waitTx k ++ [SPIFLASH_WRITEENABLE]) :=
  ⟨by decide, C7_chip_erase_write_enable_only rx0 2 s0 ⟨2, [5, 0]⟩ (by decide)⟩

/-- C8: `read_byte(a)` transmits the ARRAYREADLOWFREQ opcode `0x03` followed
by the three address bytes of `a` most-significant first and clocks in
exactly one data byte; `read_bytes(a, buf)` transmits the ARRAYREAD opcode
`0x0B`, the same three address bytes, exactly one dummy byte, and clocks in
exactly `buf.length` bytes — no bytes inserted or omitted in either frame. -/
theorem C8_read_frames_exact (rx : Rx) (fuel : Nat) (s s' : SpiState)
    (addr n : Nat) (h : wait rx fuel s = some s') (ha : addr < 4294967296) :
    read_byte rx fuel s addr
      = some (⟨s'.idx + 5, s'.tx ++ [SPIFLASH_ARRAYREADLOWFREQ,
          (addr >>> 16) % 256, (addr >>> 8) % 256, addr % 256, 0]⟩,
        rx (s'.idx + 4) % 256) ∧
    read_bytes rx fuel s addr n
      = some (⟨s'.idx + 5 + n, s'.tx ++ [SPIFLASH_ARRAYREAD,
          (addr >>> 16) % 256, (addr >>> 8) % 256, addr % 256, 0]
          ++ List.replicate n 0⟩, rxBytes rx (s'.idx + 5) n) ∧
    (rxBytes rx (s'.idx + 5) n).length = n :=
  ⟨read_byte_eq rx fuel s s' addr h ha,
    read_bytes_eq rx fuel s s' addr n h ha,
    rxBytes_length rx (s'.idx + 5) n⟩

theorem C8_read_frames_exact_witness :
    (wait rx0 2 s0 = some ⟨2, [5, 0]⟩ ∧ (74565 : Nat) < 4294967296) ∧
    (read_byte rx0 2 s0 74565
        = some (⟨(⟨2, [5, 0]⟩ : SpiState).idx + 5,
            (⟨2, [5, 0]⟩ : SpiState).tx ++ [SPIFLASH_ARRAYREADLOWFREQ,
              ((74565 : Nat) >>> 16) % 256, ((74565 : Nat) >>> 8) % 256, 74565 % 256, 0]⟩,
          rx0 ((⟨2, [5, 0]⟩ : SpiState).idx + 4) % 256) ∧
      read_bytes rx0 2 s0 74565 3
        = some (⟨(⟨2, [5, 0]⟩ : SpiState).idx + 5 + 3,
            (⟨2, [5, 0]⟩ : SpiState).tx ++ [SPIFLASH_ARRAYREAD,
              ((74565 : Nat) >>> 16) % 256, ((74565 : Nat) >>> 8) % 256, 74565 % 256, 0]
              ++ List.replicate 3 0⟩,
          rxBytes rx0 ((⟨2, [5, 0]⟩ : SpiState).idx + 5) 3) ∧
      (rxBytes rx0 ((⟨2, [5, 0]⟩ : SpiState).idx + 5) 3).length = 3) :=
  ⟨⟨by decide, by decide⟩,
    C8_read_frames_exact rx0 2 s0 ⟨2, [5, 0]⟩ 74565 3 (by decide) (by decide)⟩

end SPIFlash
